import Mathlib

/-
Verification of the OpenGL ProgramShaderCache
(Source/Core/VideoBackends/OGL/ProgramShaderCache.cpp).

The cpp file is embedded as a state-passing model: a single record `CacheState`
holds the file's statics (`pshaders`, `last_entry`, `last_uid`, `CurrentProgram`,
the stream-buffer fields) together with a small model of the GL driver's object
table (created/deleted shader and program objects, the currently bound program)
and ghost instrumentation counters (number of glCompileShader / glLinkProgram /
glUseProgram calls) used to state "no recompilation" and "no rebind" properties.

Collaborators that are outside the one source file (the uid derivation
functions, ROUND_UP, StreamBuffer, LinearDiskCache, the shader-manager constant
block sizes, and all driver verdicts) are modelled from the spec, as marked on
each definition; the driver's pass/fail verdicts are oracles supplied as
parameters, deterministic in the inputs the source hands to the driver.
-/

set_option maxHeartbeats 1000000

namespace OGLCache

/-- Modelled from the spec: ROUND_UP (Common/MathUtil.h, not among the sources)
rounds a byte size up to the next multiple of the alignment ("each individually
rounded up to the driver-reported uniform-buffer alignment").  The alignment-zero
case is left as the identity; no spec sentence constrains it. -/
def ROUND_UP (x a : Nat) : Nat :=
  if a = 0 then x else ((x + a - 1) / a) * a

/-- UBO_LENGTH: size of the streaming uniform buffer (32 MiB). -/
def UBO_LENGTH : Nat := 32 * 1024 * 1024

/-- Pipeline state handed to SetShader: destination-alpha mode, vertex component
flags and primitive topology.  The xfmem/bpmem fixed-function blocks that also
feed the uid functions are external inputs; they are folded into these numerals
for the model. -/
structure PipelineState where
  dstAlphaMode : Nat
  components : Nat
  primitive_type : Nat
  deriving DecidableEq

/-- SHADERUID: the composite cache key, three per-stage sub-uids plus the
structural passthrough flag that the source reads via
uid.guid.GetUidData().IsPassthrough(). -/
structure SHADERUID where
  puid : Nat
  vuid : Nat
  guid : Nat
  guidPassthrough : Bool
  deriving DecidableEq, Inhabited

/-- Modelled from the spec: the three uid derivation functions
(GetPixelShaderUidGL, GetVertexShaderUidGL, GetGeometryShaderUid — external to
the sources) are pure deterministic functions of exactly the state that
influences each stage's generated source, and the passthrough variant is
detected structurally from the topology. -/
def GetShaderId (ps : PipelineState) : SHADERUID :=
  { puid := 3 * ps.components + ps.dstAlphaMode
    vuid := ps.components
    guid := ps.primitive_type
    guidPassthrough := ps.primitive_type == 0 }

/-- SHADER (ProgramShaderCache.h): owns the linked GL program id.  The
debug-only captured source strings are omitted. -/
structure SHADER where
  glprogid : Nat
  deriving DecidableEq, Inhabited

/-- PCacheEntry: one cache record; in_cache is the persisted-to-disk flag. -/
structure PCacheEntry where
  shader : SHADER
  in_cache : Nat
  deriving DecidableEq, Inhabited

/-- Capability/config flags and the external constant-block sizes read by the
cache (g_ActiveConfig, g_ogl_config, the shader managers' buffer sizes). -/
structure Config where
  supportsGeometryShaders : Bool
  bindingLayout : Bool
  supportsGLSLCache : Bool
  enableShaderDebugging : Bool
  pixelBufferFloats : Nat
  vertexBufferFloats : Nat
  geometryConstantsBytes : Nat
  deriving DecidableEq

/-- Driver verdicts for one compilation request: the per-stage GL_COMPILE_STATUS
results and the GL_LINK_STATUS result.  The generated source is a deterministic
function of the uid and the driver verdict a function of the submitted source,
so a request's verdicts are a function of its uid, supplied as an oracle. -/
structure CompileVerdicts where
  vOk : Bool
  pOk : Bool
  gOk : Bool
  linkOk : Bool
  deriving DecidableEq

/-- The complete mutable state of the translation unit plus the modelled driver:
statics of ProgramShaderCache.cpp, the GL object table, and ghost call
counters. -/
structure CacheState where
  nextId : Nat
  liveShaders : List Nat
  livePrograms : List Nat
  linkedPrograms : List Nat
  compileCalls : Nat
  linkCalls : Nat
  boundProgram : Nat
  useProgramCalls : Nat
  CurrentProgram : Nat
  numShaderChanges : Nat
  numPixelShadersCreated : Nat
  pshaders : List (SHADERUID × PCacheEntry)
  last_entry : Option PCacheEntry
  last_uid : SHADERUID
  s_ubo_align : Nat
  s_ubo_buffer_size : Nat
  bufferCreated : Bool
  bufferCursor : Nat
  psDirty : Bool
  vsDirty : Bool
  gsDirty : Bool
  bytesUniformStreamed : Nat
  diskLog : List (SHADERUID × List Nat)
  alignQueries : Nat
  headerBuilt : Bool
  deriving DecidableEq

/-- Lookup in the uid-to-entry map (std::map find). -/
def lookupP (m : List (SHADERUID × PCacheEntry)) (k : SHADERUID) : Option PCacheEntry :=
  match m with
  | [] => none
  | (k1, v) :: rest => if k1 = k then some v else lookupP rest k

/-- Store under a key (std::map operator[] assignment): replaces the entry when
the key is present, otherwise appends it. -/
def insertP (m : List (SHADERUID × PCacheEntry)) (k : SHADERUID) (v : PCacheEntry) :
    List (SHADERUID × PCacheEntry) :=
  match m with
  | [] => [(k, v)]
  | (k1, v1) :: rest => if k1 = k then (k, v) :: rest else (k1, v1) :: insertP rest k v

/-- glDeleteShader: deleting object 0 is a no-op; otherwise the object is
removed from the driver's table. -/
def glDeleteShader (i : Nat) (s : CacheState) : CacheState :=
  if i = 0 then s else { s with liveShaders := s.liveShaders.filter (fun x => x != i) }

/-- glDeleteProgram: deleting object 0 is a no-op; otherwise the program object
is removed from the driver's table. -/
def glDeleteProgram (i : Nat) (s : CacheState) : CacheState :=
  if i = 0 then s else { s with livePrograms := s.livePrograms.filter (fun x => x != i) }

/-- SHADER::Bind: rebind only when the tracked CurrentProgram differs from the
handle, counting the issued glUseProgram driver call and incrementing the
numShaderChanges statistic. -/
def SHADER.Bind (sh : SHADER) (s : CacheState) : CacheState :=
  if s.CurrentProgram ≠ sh.glprogid then
    { s with numShaderChanges := s.numShaderChanges + 1
             useProgramCalls := s.useProgramCalls + 1
             boundProgram := sh.glprogid
             CurrentProgram := sh.glprogid }
  else s

/-- SHADER::SetProgramVariables: without native binding-layout support the
program must first be bound so the uniform-block and sampler bindings can be
assigned; the glUniformBlockBinding and glUniform1i calls themselves carry no
modelled state. -/
def SHADER.SetProgramVariables (sh : SHADER) (cfg : Config) (s : CacheState) : CacheState :=
  if cfg.bindingLayout then s else sh.Bind s

/-- CompileSingleShader: create a stage object, submit header plus generated
source, compile, and on a failed GL_COMPILE_STATUS (plus diagnostic dump and
alert, which carry no modelled state) delete the object and return 0. -/
def CompileSingleShader (ok : Bool) (s : CacheState) : Nat × CacheState :=
  let i := s.nextId
  let s1 := { s with nextId := i + 1
                     liveShaders := i :: s.liveShaders
                     compileCalls := s.compileCalls + 1 }
  if ok then (i, s1) else (0, glDeleteShader i s1)

/-- ProgramShaderCache::CompileShader: compile the vertex and fragment stages
and, when geometry code was generated, the geometry stage; if any returned 0,
delete all stage objects and fail without linking.  Otherwise create the
program, attach the stages, apply the fixed bindings, link, delete the stage
objects, and on a failed GL_LINK_STATUS delete the program and fail; on success
run SetProgramVariables.  Returns (success, shader with glprogid, state). -/
def CompileShader (cfg : Config) (vd : CompileVerdicts) (hasGeometryCode : Bool)
    (sh : SHADER) (s : CacheState) : Bool × SHADER × CacheState :=
  let r1 := CompileSingleShader vd.vOk s
  let vsid := r1.1
  let r2 := CompileSingleShader vd.pOk r1.2
  let psid := r2.1
  let r3 := if hasGeometryCode then CompileSingleShader vd.gOk r2.2 else (0, r2.2)
  let gsid := r3.1
  if vsid = 0 ∨ psid = 0 ∨ (hasGeometryCode = true ∧ gsid = 0) then
    (false, sh, glDeleteShader gsid (glDeleteShader psid (glDeleteShader vsid r3.2)))
  else
    let pid := r3.2.nextId
    let s4 := { r3.2 with nextId := pid + 1, livePrograms := pid :: r3.2.livePrograms }
    let sh1 := { sh with glprogid := pid }
    let s5 := { s4 with linkCalls := s4.linkCalls + 1
                        linkedPrograms := if vd.linkOk then pid :: s4.linkedPrograms
                                          else s4.linkedPrograms }
    let s6 := glDeleteShader gsid (glDeleteShader psid (glDeleteShader vsid s5))
    if vd.linkOk then
      (true, sh1, sh1.SetProgramVariables cfg s6)
    else
      (false, sh1, glDeleteProgram pid s6)

/-- The slow path of SetShader once the last-entry fast path has missed: store
last_uid, look the uid up in pshaders; on a hit update last_entry and bind; on a
miss create the map entry (pshaders[uid], in_cache = 0), generate the three
sources (external collaborators), compile, and return null on failure. -/
def SetShaderSlow (cfg : Config) (vt : SHADERUID → CompileVerdicts) (uid : SHADERUID)
    (s : CacheState) : Option SHADER × CacheState :=
  match lookupP s.pshaders uid with
  | some entry =>
      (some entry.shader,
        entry.shader.Bind { s with last_uid := uid, last_entry := some entry })
  | none =>
      let res := CompileShader cfg (vt uid)
        (cfg.supportsGeometryShaders && !uid.guidPassthrough) { glprogid := 0 }
        { s with last_uid := uid }
      let entry : PCacheEntry := { shader := res.2.1, in_cache := 0 }
      let s1 := { res.2.2 with pshaders := insertP res.2.2.pshaders uid entry
                               last_entry := some entry }
      if res.1 then
        let s2 := { s1 with numPixelShadersCreated := s1.numPixelShadersCreated + 1 }
        (some entry.shader, entry.shader.Bind s2)
      else
        (none, s1)

/-- ProgramShaderCache::SetShader: derive the uid; when last_entry is set and
the uid equals last_uid, bind and return the last entry (fast path — no map
lookup, no compilation); otherwise take the slow path. -/
def SetShader (cfg : Config) (vt : SHADERUID → CompileVerdicts) (s : CacheState)
    (ps : PipelineState) : Option SHADER × CacheState :=
  let uid := GetShaderId ps
  match s.last_entry with
  | some e =>
      if uid = s.last_uid then (some e.shader, e.shader.Bind s)
      else SetShaderSlow cfg vt uid s
  | none => SetShaderSlow cfg vt uid s

/-- A sequence of SetShader calls with their results discarded, modelling
arbitrary intervening resolves. -/
def runCalls (cfg : Config) (vt : SHADERUID → CompileVerdicts) (l : List PipelineState)
    (s : CacheState) : CacheState :=
  match l with
  | [] => s
  | p :: rest => runCalls cfg vt rest (SetShader cfg vt s p).2

/-- ProgramShaderCacheInserter::Read: split the blob into the 4-byte format tag
and the binary, create a program, submit it through glProgramBinary, and when
GL_LINK_STATUS reports success store the entry pre-marked in_cache = 1 into
pshaders with a plain pshaders[key] assignment, then run SetProgramVariables;
otherwise delete the program.  The driver's verdict on a stored blob is the
oracle loadOk. -/
def inserterRead (cfg : Config) (loadOk : List Nat → Bool) (s : CacheState)
    (key : SHADERUID) (value : List Nat) : CacheState :=
  let pid := s.nextId
  let s1 := { s with nextId := pid + 1, livePrograms := pid :: s.livePrograms }
  if loadOk value then
    let entry : PCacheEntry := { shader := { glprogid := pid }, in_cache := 1 }
    let s2 := { s1 with pshaders := insertP s1.pshaders key entry
                        linkedPrograms := pid :: s1.linkedPrograms }
    entry.shader.SetProgramVariables cfg s2
  else
    glDeleteProgram pid s1

/-- Modelled from the spec: LinearDiskCache::OpenAndRead (not among the
sources) replays every on-disk record in file order through the inserter. -/
def OpenAndRead (cfg : Config) (loadOk : List Nat → Bool)
    (recs : List (SHADERUID × List Nat)) (s : CacheState) : CacheState :=
  match recs with
  | [] => s
  | (k, v) :: rest => OpenAndRead cfg loadOk rest (inserterRead cfg loadOk s k v)

/-- ProgramShaderCache::Init: query the UBO alignment (exactly one
glGetIntegerv), compute s_ubo_buffer_size as the sum of the three per-block
sizes each rounded up to the alignment, create the streaming buffer
unconditionally, replay the disk cache when the driver supports binaries, shader
debugging is off and at least one binary format is known, build the GLSL header,
and reset CurrentProgram and last_entry.  last_uid is not reset. -/
def Init (cfg : Config) (alignment : Nat) (numBinaryFormats : Nat)
    (loadOk : List Nat → Bool) (recs : List (SHADERUID × List Nat))
    (s : CacheState) : CacheState :=
  let s1 := { s with alignQueries := s.alignQueries + 1, s_ubo_align := alignment }
  let size := ROUND_UP (4 * cfg.pixelBufferFloats) alignment
      + ROUND_UP (4 * cfg.vertexBufferFloats) alignment
      + ROUND_UP cfg.geometryConstantsBytes alignment
  let s2 := { s1 with s_ubo_buffer_size := size }
  let s3 := { s2 with bufferCreated := true, bufferCursor := 0 }
  let s4 := if cfg.supportsGLSLCache && !cfg.enableShaderDebugging then
      (if numBinaryFormats = 0 then s3 else OpenAndRead cfg loadOk recs s3)
    else s3
  let s5 := { s4 with headerBuilt := true }
  { s5 with CurrentProgram := 0, last_entry := none }

/-- One entry's disk-flush step inside Shutdown: entries already in_cache are
skipped; otherwise the program is queried for link status, delete status and
binary length, and only a cleanly retrievable binary — oracle ser, returning the
blob carrying the format tag in front, none standing for any of the failed queries — is
appended to the disk log. -/
def flushEntry (ser : Nat → Option (List Nat)) (s : CacheState)
    (e : SHADERUID × PCacheEntry) : CacheState :=
  if e.2.in_cache ≠ 0 then s
  else match ser e.2.shader.glprogid with
    | some blob => { s with diskLog := s.diskLog ++ [(e.1, blob)] }
    | none => s

/-- ProgramShaderCache::Shutdown: when the disk cache is enabled, flush every
not-yet-persisted entry to the disk log and close it; then glUseProgram(0)
(issued unconditionally; the tracked CurrentProgram variable is not updated),
destroy every entry's program object (PCacheEntry::Destroy, i.e. glDeleteProgram
on its glprogid — modelled from the spec's "destroys each GPU program object"
since the header is not among the sources), clear the map, and delete the
streaming buffer.  last_entry is not touched. -/
def Shutdown (cfg : Config) (ser : Nat → Option (List Nat)) (s : CacheState) : CacheState :=
  let s1 := if cfg.supportsGLSLCache && !cfg.enableShaderDebugging then
      s.pshaders.foldl (flushEntry ser) s
    else s
  let s2 := { s1 with boundProgram := 0, useProgramCalls := s1.useProgramCalls + 1 }
  let s3 := s2.pshaders.foldl (fun g e => glDeleteProgram e.2.shader.glprogid g) s2
  let s4 := { s3 with pshaders := [] }
  { s4 with bufferCreated := false }

/-- Record of one performed constant upload: the mapped size and buffer offset,
the memcpy destinations inside the mapped window as (sub-offset, byte length)
in execution order, and the three glBindBufferRange calls as
(binding point, buffer offset, byte length). -/
structure UploadRecord where
  mapSize : Nat
  mapOffset : Nat
  copies : List (Nat × Nat)
  binds : List (Nat × Nat × Nat)
  deriving DecidableEq

/-- Modelled from the spec: StreamBuffer::Map (not among the sources) is a ring
allocator handing out an aligned offset for a region of the requested size,
wrapping to the start when the region does not fit before the end. -/
def streamMap (size align : Nat) (s : CacheState) : Nat × CacheState :=
  let aligned := ROUND_UP s.bufferCursor align
  let off := if aligned + size ≤ UBO_LENGTH then aligned else 0
  (off, { s with bufferCursor := off + size })

/-- ProgramShaderCache::UploadConstants: only when one of the three constant
managers reports dirty state, map s_ubo_buffer_size bytes, copy the pixel block
at sub-offset 0, the vertex block after the rounded-up pixel size and the
geometry block after both rounded-up sizes, unmap, bind the three ranges at
binding points 1, 2 and 3 with the unrounded lengths, clear all three dirty
flags and count the streamed bytes.  Returns the state and the performed upload
(none when nothing was dirty). -/
def UploadConstants (cfg : Config) (s : CacheState) : CacheState × Option UploadRecord :=
  if s.psDirty || s.vsDirty || s.gsDirty then
    let r := streamMap s.s_ubo_buffer_size s.s_ubo_align s
    let off := r.1
    let pbs := 4 * cfg.pixelBufferFloats
    let vbs := 4 * cfg.vertexBufferFloats
    let gbs := cfg.geometryConstantsBytes
    let d1 := ROUND_UP pbs s.s_ubo_align
    let d2 := d1 + ROUND_UP vbs s.s_ubo_align
    let rec0 : UploadRecord :=
      { mapSize := s.s_ubo_buffer_size
        mapOffset := off
        copies := [(0, pbs), (d1, vbs), (d2, gbs)]
        binds := [(1, off, pbs), (2, off + d1, vbs), (3, off + d2, gbs)] }
    let s2 := { r.2 with psDirty := false, vsDirty := false, gsDirty := false
                         bytesUniformStreamed := r.2.bytesUniformStreamed + s.s_ubo_buffer_size }
    (s2, some rec0)
  else (s, none)

/-- ProgramShaderCache::GetShaderProgram returns *last_entry with no null
check: when last_entry is null the dereference is undefined behaviour.  The
model returns the optional entry; none marks the reached null dereference. -/
def GetShaderProgram (s : CacheState) : Option PCacheEntry :=
  s.last_entry

/-- ProgramShaderCache::GetCurrentProgram. -/
def GetCurrentProgram (s : CacheState) : Nat :=
  s.CurrentProgram

/-- Reachable-state invariant tying the fast-path pair to the map: whenever
last_entry is set it holds exactly the entry stored in pshaders under
last_uid. -/
def Inv (s : CacheState) : Prop :=
  ∀ e, s.last_entry = some e → lookupP s.pshaders s.last_uid = some e

/-- Object-id freshness: every tracked GL object id is positive and below the
allocation counter.  All reachable states satisfy this; id 0 never denotes a
real object. -/
def FreshIds (s : CacheState) : Prop :=
  0 < s.nextId
  ∧ (∀ x ∈ s.liveShaders, 0 < x ∧ x < s.nextId)
  ∧ (∀ x ∈ s.livePrograms, 0 < x ∧ x < s.nextId)
  ∧ (∀ x ∈ s.linkedPrograms, 0 < x ∧ x < s.nextId)

/-- A compilation request fails when some compiled stage or the link step
fails. -/
def compileRequestFails (cfg : Config) (vd : CompileVerdicts) (uid : SHADERUID) : Prop :=
  ¬(vd.vOk = true ∧ vd.pOk = true
    ∧ ((cfg.supportsGeometryShaders && !uid.guidPassthrough) = true → vd.gOk = true)
    ∧ vd.linkOk = true)

/-- The process-start state: zero-initialized statics, empty driver table. -/
def initState : CacheState :=
  { nextId := 1, liveShaders := [], livePrograms := [], linkedPrograms := []
    compileCalls := 0, linkCalls := 0, boundProgram := 0, useProgramCalls := 0
    CurrentProgram := 0, numShaderChanges := 0, numPixelShadersCreated := 0
    pshaders := [], last_entry := none, last_uid := default
    s_ubo_align := 0, s_ubo_buffer_size := 0, bufferCreated := false, bufferCursor := 0
    psDirty := false, vsDirty := false, gsDirty := false, bytesUniformStreamed := 0
    diskLog := [], alignQueries := 0, headerBuilt := false }

/-! ### Map lemmas -/

theorem lookupP_insertP_self (m : List (SHADERUID × PCacheEntry)) (k : SHADERUID)
    (v : PCacheEntry) : lookupP (insertP m k v) k = some v := by
  induction m with
  | nil => simp [insertP, lookupP]
  | cons hd tl ih =>
    by_cases h : hd.1 = k
    · simp [insertP, h, lookupP]
    · simpa [insertP, h, lookupP] using ih

theorem lookupP_insertP_ne (m : List (SHADERUID × PCacheEntry)) (k1 k : SHADERUID)
    (v : PCacheEntry) (h : k1 ≠ k) : lookupP (insertP m k1 v) k = lookupP m k := by
  induction m with
  | nil => simp [insertP, lookupP, h]
  | cons hd tl ih =>
    by_cases h2 : hd.1 = k1
    · simp [insertP, h2, lookupP, h]
    · by_cases h3 : hd.1 = k <;> simp [insertP, h2, lookupP, h3, ih, Ne.symm h]

/-! ### Field-projection lemmas for the primitive operations -/

@[simp] theorem glDeleteShader_pshaders (i : Nat) (s : CacheState) :
    (glDeleteShader i s).pshaders = s.pshaders := by
  unfold glDeleteShader; split <;> rfl

@[simp] theorem glDeleteShader_last_entry (i : Nat) (s : CacheState) :
    (glDeleteShader i s).last_entry = s.last_entry := by
  unfold glDeleteShader; split <;> rfl

@[simp] theorem glDeleteShader_last_uid (i : Nat) (s : CacheState) :
    (glDeleteShader i s).last_uid = s.last_uid := by
  unfold glDeleteShader; split <;> rfl

@[simp] theorem glDeleteShader_compileCalls (i : Nat) (s : CacheState) :
    (glDeleteShader i s).compileCalls = s.compileCalls := by
  unfold glDeleteShader; split <;> rfl

@[simp] theorem glDeleteShader_linkCalls (i : Nat) (s : CacheState) :
    (glDeleteShader i s).linkCalls = s.linkCalls := by
  unfold glDeleteShader; split <;> rfl

@[simp] theorem glDeleteShader_nextId (i : Nat) (s : CacheState) :
    (glDeleteShader i s).nextId = s.nextId := by
  unfold glDeleteShader; split <;> rfl

@[simp] theorem glDeleteShader_linkedPrograms (i : Nat) (s : CacheState) :
    (glDeleteShader i s).linkedPrograms = s.linkedPrograms := by
  unfold glDeleteShader; split <;> rfl

@[simp] theorem glDeleteShader_livePrograms (i : Nat) (s : CacheState) :
    (glDeleteShader i s).livePrograms = s.livePrograms := by
  unfold glDeleteShader; split <;> rfl

@[simp] theorem glDeleteProgram_pshaders (i : Nat) (s : CacheState) :
    (glDeleteProgram i s).pshaders = s.pshaders := by
  unfold glDeleteProgram; split <;> rfl

@[simp] theorem glDeleteProgram_last_entry (i : Nat) (s : CacheState) :
    (glDeleteProgram i s).last_entry = s.last_entry := by
  unfold glDeleteProgram; split <;> rfl

@[simp] theorem glDeleteProgram_last_uid (i : Nat) (s : CacheState) :
    (glDeleteProgram i s).last_uid = s.last_uid := by
  unfold glDeleteProgram; split <;> rfl

@[simp] theorem glDeleteProgram_compileCalls (i : Nat) (s : CacheState) :
    (glDeleteProgram i s).compileCalls = s.compileCalls := by
  unfold glDeleteProgram; split <;> rfl

@[simp] theorem glDeleteProgram_linkCalls (i : Nat) (s : CacheState) :
    (glDeleteProgram i s).linkCalls = s.linkCalls := by
  unfold glDeleteProgram; split <;> rfl

@[simp] theorem glDeleteProgram_nextId (i : Nat) (s : CacheState) :
    (glDeleteProgram i s).nextId = s.nextId := by
  unfold glDeleteProgram; split <;> rfl

@[simp] theorem glDeleteProgram_linkedPrograms (i : Nat) (s : CacheState) :
    (glDeleteProgram i s).linkedPrograms = s.linkedPrograms := by
  unfold glDeleteProgram; split <;> rfl

@[simp] theorem glDeleteProgram_liveShaders (i : Nat) (s : CacheState) :
    (glDeleteProgram i s).liveShaders = s.liveShaders := by
  unfold glDeleteProgram; split <;> rfl

@[simp] theorem glDeleteProgram_boundProgram (i : Nat) (s : CacheState) :
    (glDeleteProgram i s).boundProgram = s.boundProgram := by
  unfold glDeleteProgram; split <;> rfl

@[simp] theorem Bind_pshaders (sh : SHADER) (s : CacheState) :
    (sh.Bind s).pshaders = s.pshaders := by
  unfold SHADER.Bind; split <;> rfl

@[simp] theorem Bind_last_entry (sh : SHADER) (s : CacheState) :
    (sh.Bind s).last_entry = s.last_entry := by
  unfold SHADER.Bind; split <;> rfl

@[simp] theorem Bind_last_uid (sh : SHADER) (s : CacheState) :
    (sh.Bind s).last_uid = s.last_uid := by
  unfold SHADER.Bind; split <;> rfl

@[simp] theorem Bind_compileCalls (sh : SHADER) (s : CacheState) :
    (sh.Bind s).compileCalls = s.compileCalls := by
  unfold SHADER.Bind; split <;> rfl

@[simp] theorem Bind_linkCalls (sh : SHADER) (s : CacheState) :
    (sh.Bind s).linkCalls = s.linkCalls := by
  unfold SHADER.Bind; split <;> rfl

@[simp] theorem Bind_nextId (sh : SHADER) (s : CacheState) :
    (sh.Bind s).nextId = s.nextId := by
  unfold SHADER.Bind; split <;> rfl

@[simp] theorem Bind_linkedPrograms (sh : SHADER) (s : CacheState) :
    (sh.Bind s).linkedPrograms = s.linkedPrograms := by
  unfold SHADER.Bind; split <;> rfl

@[simp] theorem Bind_liveShaders (sh : SHADER) (s : CacheState) :
    (sh.Bind s).liveShaders = s.liveShaders := by
  unfold SHADER.Bind; split <;> rfl

@[simp] theorem Bind_livePrograms (sh : SHADER) (s : CacheState) :
    (sh.Bind s).livePrograms = s.livePrograms := by
  unfold SHADER.Bind; split <;> rfl

@[simp] theorem SPV_pshaders (sh : SHADER) (cfg : Config) (s : CacheState) :
    (sh.SetProgramVariables cfg s).pshaders = s.pshaders := by
  unfold SHADER.SetProgramVariables; split <;> simp

@[simp] theorem SPV_last_entry (sh : SHADER) (cfg : Config) (s : CacheState) :
    (sh.SetProgramVariables cfg s).last_entry = s.last_entry := by
  unfold SHADER.SetProgramVariables; split <;> simp

@[simp] theorem SPV_last_uid (sh : SHADER) (cfg : Config) (s : CacheState) :
    (sh.SetProgramVariables cfg s).last_uid = s.last_uid := by
  unfold SHADER.SetProgramVariables; split <;> simp

@[simp] theorem SPV_compileCalls (sh : SHADER) (cfg : Config) (s : CacheState) :
    (sh.SetProgramVariables cfg s).compileCalls = s.compileCalls := by
  unfold SHADER.SetProgramVariables; split <;> simp

@[simp] theorem SPV_linkCalls (sh : SHADER) (cfg : Config) (s : CacheState) :
    (sh.SetProgramVariables cfg s).linkCalls = s.linkCalls := by
  unfold SHADER.SetProgramVariables; split <;> simp

@[simp] theorem SPV_nextId (sh : SHADER) (cfg : Config) (s : CacheState) :
    (sh.SetProgramVariables cfg s).nextId = s.nextId := by
  unfold SHADER.SetProgramVariables; split <;> simp

@[simp] theorem SPV_linkedPrograms (sh : SHADER) (cfg : Config) (s : CacheState) :
    (sh.SetProgramVariables cfg s).linkedPrograms = s.linkedPrograms := by
  unfold SHADER.SetProgramVariables; split <;> simp

@[simp] theorem SPV_liveShaders (sh : SHADER) (cfg : Config) (s : CacheState) :
    (sh.SetProgramVariables cfg s).liveShaders = s.liveShaders := by
  unfold SHADER.SetProgramVariables; split <;> simp

@[simp] theorem SPV_livePrograms (sh : SHADER) (cfg : Config) (s : CacheState) :
    (sh.SetProgramVariables cfg s).livePrograms = s.livePrograms := by
  unfold SHADER.SetProgramVariables; split <;> simp

/-! ### CompileSingleShader and CompileShader lemmas -/


@[simp] theorem CSS_fst (ok : Bool) (s : CacheState) :
    (CompileSingleShader ok s).1 = if ok then s.nextId else 0 := by
  unfold CompileSingleShader; split <;> simp

@[simp] theorem CSS_pshaders (ok : Bool) (s : CacheState) :
    (CompileSingleShader ok s).2.pshaders = s.pshaders := by
  unfold CompileSingleShader; split <;> simp

@[simp] theorem CSS_last_entry (ok : Bool) (s : CacheState) :
    (CompileSingleShader ok s).2.last_entry = s.last_entry := by
  unfold CompileSingleShader; split <;> simp

@[simp] theorem CSS_last_uid (ok : Bool) (s : CacheState) :
    (CompileSingleShader ok s).2.last_uid = s.last_uid := by
  unfold CompileSingleShader; split <;> simp

@[simp] theorem CSS_linkCalls (ok : Bool) (s : CacheState) :
    (CompileSingleShader ok s).2.linkCalls = s.linkCalls := by
  unfold CompileSingleShader; split <;> simp

@[simp] theorem CSS_linkedPrograms (ok : Bool) (s : CacheState) :
    (CompileSingleShader ok s).2.linkedPrograms = s.linkedPrograms := by
  unfold CompileSingleShader; split <;> simp

@[simp] theorem CSS_livePrograms (ok : Bool) (s : CacheState) :
    (CompileSingleShader ok s).2.livePrograms = s.livePrograms := by
  unfold CompileSingleShader; split <;> simp

@[simp] theorem CSS_nextId (ok : Bool) (s : CacheState) :
    (CompileSingleShader ok s).2.nextId = s.nextId + 1 := by
  unfold CompileSingleShader; split <;> simp

@[simp] theorem CSS_compileCalls (ok : Bool) (s : CacheState) :
    (CompileSingleShader ok s).2.compileCalls = s.compileCalls + 1 := by
  unfold CompileSingleShader; split <;> simp



theorem CompileShader_pshaders (cfg : Config) (vd : CompileVerdicts) (hg : Bool)
    (sh : SHADER) (s : CacheState) :
    (CompileShader cfg vd hg sh s).2.2.pshaders = s.pshaders := by
  rcases vd with ⟨v, p, g, l⟩
  cases v <;> cases p <;> cases g <;> cases l <;> cases hg <;>
    (unfold CompileShader) <;> dsimp only <;> by_cases hn : s.nextId = 0 <;> simp [hn]

theorem CompileShader_nextId (cfg : Config) (vd : CompileVerdicts) (hg : Bool)
    (sh : SHADER) (s : CacheState) :
    s.nextId ≤ (CompileShader cfg vd hg sh s).2.2.nextId := by
  rcases vd with ⟨v, p, g, l⟩
  cases v <;> cases p <;> cases g <;> cases l <;> cases hg <;>
    (unfold CompileShader) <;> dsimp only <;> by_cases hn : s.nextId = 0 <;> simp [hn] <;> omega

theorem CompileShader_linked_mono (cfg : Config) (vd : CompileVerdicts) (hg : Bool)
    (sh : SHADER) (s : CacheState) (q : Nat) (hq : q < s.nextId)
    (hnq : q ∉ s.linkedPrograms) :
    q ∉ (CompileShader cfg vd hg sh s).2.2.linkedPrograms := by
  rcases vd with ⟨v, p, g, l⟩
  cases v <;> cases p <;> cases g <;> cases l <;> cases hg <;>
    (unfold CompileShader) <;> dsimp only <;> by_cases hn : s.nextId = 0 <;> simp_all <;> omega

theorem CompileShader_last_entry (cfg : Config) (vd : CompileVerdicts) (hg : Bool)
    (sh : SHADER) (s : CacheState) :
    (CompileShader cfg vd hg sh s).2.2.last_entry = s.last_entry := by
  rcases vd with ⟨v, p, g, l⟩
  cases v <;> cases p <;> cases g <;> cases l <;> cases hg <;>
    (unfold CompileShader) <;> dsimp only <;> by_cases hn : s.nextId = 0 <;> simp [hn]

theorem CompileShader_last_uid (cfg : Config) (vd : CompileVerdicts) (hg : Bool)
    (sh : SHADER) (s : CacheState) :
    (CompileShader cfg vd hg sh s).2.2.last_uid = s.last_uid := by
  rcases vd with ⟨v, p, g, l⟩
  cases v <;> cases p <;> cases g <;> cases l <;> cases hg <;>
    (unfold CompileShader) <;> dsimp only <;> by_cases hn : s.nextId = 0 <;> simp [hn]

theorem CompileShader_fail (cfg : Config) (vd : CompileVerdicts) (hg : Bool)
    (sh : SHADER) (s : CacheState)
    (hfail : ¬(vd.vOk = true ∧ vd.pOk = true ∧ (hg = true → vd.gOk = true)
      ∧ vd.linkOk = true)) :
    (CompileShader cfg vd hg sh s).1 = false := by
  rcases vd with ⟨v, p, g, l⟩
  cases v <;> cases p <;> cases g <;> cases l <;> cases hg <;>
    (unfold CompileShader) <;> dsimp only <;> by_cases hn : s.nextId = 0 <;>
    simp_all

theorem CompileShader_fail_shader (cfg : Config) (vd : CompileVerdicts) (hg : Bool)
    (s : CacheState)
    (h0 : 0 < s.nextId)
    (hl : ∀ x ∈ s.linkedPrograms, 0 < x ∧ x < s.nextId)
    (hfail : ¬(vd.vOk = true ∧ vd.pOk = true ∧ (hg = true → vd.gOk = true)
      ∧ vd.linkOk = true)) :
    (CompileShader cfg vd hg ⟨0⟩ s).2.1.glprogid
        ∉ (CompileShader cfg vd hg ⟨0⟩ s).2.2.linkedPrograms
    ∧ (CompileShader cfg vd hg ⟨0⟩ s).2.1.glprogid
        < (CompileShader cfg vd hg ⟨0⟩ s).2.2.nextId := by
  rcases vd with ⟨v, p, g, l⟩
  cases v <;> cases p <;> cases g <;> cases l <;> cases hg <;>
    (unfold CompileShader) <;> dsimp only <;> by_cases hn : s.nextId = 0 <;>
    simp_all <;>
    (try intro hmem) <;>
    (try exact absurd (hl _ hmem) (by omega))

theorem filter_bne_of_lt (i : Nat) (l : List Nat) (h : ∀ x ∈ l, x < i) :
    l.filter (fun x => x != i) = l := by
  apply List.filter_eq_self.mpr
  intro a ha
  simpa using Nat.ne_of_lt (h a ha)

theorem bne_add_one (n : Nat) : (n != n + 1) = true := by
  simp
theorem bne_add_two (n : Nat) : (n != n + 1 + 1) = true := by
  simp; omega
theorem bne_succ_add (n : Nat) : (n + 1 != n + 1 + 1) = true := by
  simp
theorem bne_one_add (n : Nat) : (n + 1 != n) = true := by
  simp
theorem bne_two_add (n : Nat) : (n + 1 + 1 != n) = true := by
  simp; omega
theorem bne_add_succ (n : Nat) : (n + 1 + 1 != n + 1) = true := by
  simp

theorem CompileShader_stage_fail (cfg : Config) (vd : CompileVerdicts) (hg : Bool)
    (sh : SHADER) (s : CacheState)
    (h0 : 0 < s.nextId)
    (hls : ∀ x ∈ s.liveShaders, x < s.nextId)
    (hfail : (vd.vOk && (vd.pOk && ((!hg) || vd.gOk))) = false) :
    (CompileShader cfg vd hg sh s).1 = false
    ∧ (CompileShader cfg vd hg sh s).2.2.linkCalls = s.linkCalls
    ∧ (CompileShader cfg vd hg sh s).2.2.liveShaders = s.liveShaders := by
  have h0' : s.nextId ≠ 0 := Nat.pos_iff_ne_zero.mp h0
  have hls1 : ∀ x ∈ s.liveShaders, x < s.nextId + 1 :=
    fun x hx => Nat.lt_succ_of_lt (hls x hx)
  have hls2 : ∀ x ∈ s.liveShaders, x < s.nextId + 1 + 1 :=
    fun x hx => Nat.lt_succ_of_lt (hls1 x hx)
  rcases vd with ⟨v, p, g, l⟩
  cases v <;> cases p <;> cases g <;> cases hg <;> simp at hfail <;>
    (unfold CompileShader CompileSingleShader glDeleteShader) <;> dsimp only <;>
    simp [h0', List.filter_cons, bne_add_one, bne_add_two, bne_succ_add,
      bne_one_add, bne_two_add, bne_add_succ,
      filter_bne_of_lt _ _ hls, filter_bne_of_lt _ _ hls1, filter_bne_of_lt _ _ hls2]


/-! ### SetShader lemmas and the resolve-path claims -/


theorem lookupP_ne_of_some_none (m : List (SHADERUID × PCacheEntry)) (k k1 : SHADERUID)
    (e : PCacheEntry) (hk : lookupP m k = some e) (hk1 : lookupP m k1 = none) :
    k1 ≠ k := by
  intro h
  rw [h, hk] at hk1
  exact Option.noConfusion hk1

theorem SSlow_pshaders_pres (cfg : Config) (vt : SHADERUID → CompileVerdicts)
    (uid : SHADERUID) (s : CacheState) (k : SHADERUID) (e : PCacheEntry)
    (hk : lookupP s.pshaders k = some e) :
    lookupP (SetShaderSlow cfg vt uid s).2.pshaders k = some e := by
  rcases hlook : lookupP s.pshaders uid with _ | entry <;>
    unfold SetShaderSlow <;> rw [hlook] <;> dsimp only
  · split <;>
      simp [CompileShader_pshaders,
        lookupP_insertP_ne _ _ _ _ (lookupP_ne_of_some_none s.pshaders k uid e hk hlook), hk]
  · simpa using hk

theorem SSlow_Inv (cfg : Config) (vt : SHADERUID → CompileVerdicts)
    (uid : SHADERUID) (s : CacheState) :
    Inv (SetShaderSlow cfg vt uid s).2 := by
  rcases hlook : lookupP s.pshaders uid with _ | entry <;>
    unfold SetShaderSlow <;> rw [hlook] <;> dsimp only
  · intro e he
    split at he <;> rename_i hc <;> simp at he <;>
      simp [hc, ← he, CompileShader_pshaders, CompileShader_last_uid, lookupP_insertP_self]
  · intro e he
    simp at he
    simp [← he, hlook]

theorem SSlow_nextId (cfg : Config) (vt : SHADERUID → CompileVerdicts)
    (uid : SHADERUID) (s : CacheState) :
    s.nextId ≤ (SetShaderSlow cfg vt uid s).2.nextId := by
  rcases hlook : lookupP s.pshaders uid with _ | entry <;>
    unfold SetShaderSlow <;> rw [hlook] <;> dsimp only
  · have h := CompileShader_nextId cfg (vt uid)
      (cfg.supportsGeometryShaders && !uid.guidPassthrough) ⟨0⟩ { s with last_uid := uid }
    split <;> simpa using h
  · simp

theorem SSlow_linked (cfg : Config) (vt : SHADERUID → CompileVerdicts)
    (uid : SHADERUID) (s : CacheState) (q : Nat) (hq : q < s.nextId)
    (hnq : q ∉ s.linkedPrograms) :
    q ∉ (SetShaderSlow cfg vt uid s).2.linkedPrograms := by
  rcases hlook : lookupP s.pshaders uid with _ | entry <;>
    unfold SetShaderSlow <;> rw [hlook] <;> dsimp only
  · have h := CompileShader_linked_mono cfg (vt uid)
      (cfg.supportsGeometryShaders && !uid.guidPassthrough) ⟨0⟩ { s with last_uid := uid }
      q (by simpa using hq) (by simpa using hnq)
    split <;> simpa using h
  · simpa using hnq

theorem SSlow_isSome (cfg : Config) (vt : SHADERUID → CompileVerdicts)
    (uid : SHADERUID) (s : CacheState) :
    ((SetShaderSlow cfg vt uid s).2.last_entry).isSome = true := by
  rcases hlook : lookupP s.pshaders uid with _ | entry <;>
    unfold SetShaderSlow <;> rw [hlook] <;> dsimp only
  · split <;> simp
  · simp

theorem SetShader_pshaders_pres (cfg : Config) (vt : SHADERUID → CompileVerdicts)
    (s : CacheState) (ps : PipelineState) (k : SHADERUID) (e : PCacheEntry)
    (hk : lookupP s.pshaders k = some e) :
    lookupP (SetShader cfg vt s ps).2.pshaders k = some e := by
  unfold SetShader
  rcases hle : s.last_entry with _ | e0 <;> dsimp only
  · exact SSlow_pshaders_pres cfg vt _ s k e hk
  · split
    · simpa using hk
    · exact SSlow_pshaders_pres cfg vt _ s k e hk

theorem SetShader_Inv (cfg : Config) (vt : SHADERUID → CompileVerdicts)
    (s : CacheState) (ps : PipelineState) (hInv : Inv s) :
    Inv (SetShader cfg vt s ps).2 := by
  unfold SetShader
  rcases hle : s.last_entry with _ | e0 <;> dsimp only
  · exact SSlow_Inv cfg vt _ s
  · split
    · intro e he
      simp [hle] at he
      simp [← he]
      exact hInv e0 hle
    · exact SSlow_Inv cfg vt _ s

theorem SetShader_nextId (cfg : Config) (vt : SHADERUID → CompileVerdicts)
    (s : CacheState) (ps : PipelineState) :
    s.nextId ≤ (SetShader cfg vt s ps).2.nextId := by
  unfold SetShader
  rcases hle : s.last_entry with _ | e0 <;> dsimp only
  · exact SSlow_nextId cfg vt _ s
  · split
    · simp
    · exact SSlow_nextId cfg vt _ s

theorem SetShader_linked (cfg : Config) (vt : SHADERUID → CompileVerdicts)
    (s : CacheState) (ps : PipelineState) (q : Nat) (hq : q < s.nextId)
    (hnq : q ∉ s.linkedPrograms) :
    q ∉ (SetShader cfg vt s ps).2.linkedPrograms := by
  unfold SetShader
  rcases hle : s.last_entry with _ | e0 <;> dsimp only
  · exact SSlow_linked cfg vt _ s q hq hnq
  · split
    · simpa using hnq
    · exact SSlow_linked cfg vt _ s q hq hnq

theorem SetShader_isSome (cfg : Config) (vt : SHADERUID → CompileVerdicts)
    (s : CacheState) (ps : PipelineState) :
    ((SetShader cfg vt s ps).2.last_entry).isSome = true := by
  unfold SetShader
  rcases hle : s.last_entry with _ | e0 <;> dsimp only
  · exact SSlow_isSome cfg vt _ s
  · split
    · simp [hle]
    · exact SSlow_isSome cfg vt _ s

theorem runCalls_pres (cfg : Config) (vt : SHADERUID → CompileVerdicts)
    (l : List PipelineState) :
    ∀ s : CacheState,
      (∀ k e, lookupP s.pshaders k = some e →
          lookupP (runCalls cfg vt l s).pshaders k = some e)
      ∧ (Inv s → Inv (runCalls cfg vt l s))
      ∧ s.nextId ≤ (runCalls cfg vt l s).nextId
      ∧ (∀ q, q < s.nextId → q ∉ s.linkedPrograms →
          q ∉ (runCalls cfg vt l s).linkedPrograms) := by
  induction l with
  | nil =>
    intro s
    exact ⟨fun k e hk => hk, id, le_refl _, fun q _ h => h⟩
  | cons p rest ih =>
    intro s
    obtain ⟨ih1, ih2, ih3, ih4⟩ := ih (SetShader cfg vt s p).2
    simp only [runCalls]
    refine ⟨?_, ?_, ?_, ?_⟩
    · intro k e hk
      exact ih1 k e (SetShader_pshaders_pres cfg vt s p k e hk)
    · intro hI
      exact ih2 (SetShader_Inv cfg vt s p hI)
    · exact le_trans (SetShader_nextId cfg vt s p) ih3
    · intro q hq hnq
      exact ih4 q (lt_of_lt_of_le hq (SetShader_nextId cfg vt s p))
        (SetShader_linked cfg vt s p q hq hnq)

theorem SetShader_cached (cfg : Config) (vt : SHADERUID → CompileVerdicts)
    (s : CacheState) (ps : PipelineState) (e : PCacheEntry) (hInv : Inv s)
    (hlook : lookupP s.pshaders (GetShaderId ps) = some e) :
    (SetShader cfg vt s ps).1 = some e.shader
    ∧ (SetShader cfg vt s ps).2.compileCalls = s.compileCalls := by
  unfold SetShader
  rcases hle : s.last_entry with _ | e0 <;> dsimp only
  · unfold SetShaderSlow
    rw [hlook]
    dsimp only
    exact ⟨rfl, by simp⟩
  · split
    · rename_i hc
      have h2 := hInv e0 hle
      rw [← hc, hlook] at h2
      have he : e = e0 := Option.some.inj h2
      subst he
      exact ⟨rfl, by simp⟩
    · unfold SetShaderSlow
      rw [hlook]
      dsimp only
      exact ⟨rfl, by simp⟩

theorem SSlow_success_lookup (cfg : Config) (vt : SHADERUID → CompileVerdicts)
    (uid : SHADERUID) (s : CacheState) (h : SHADER)
    (hcall : (SetShaderSlow cfg vt uid s).1 = some h) :
    ∃ e, lookupP (SetShaderSlow cfg vt uid s).2.pshaders uid = some e
      ∧ e.shader = h := by
  rcases hlook : lookupP s.pshaders uid with _ | entry <;>
    unfold SetShaderSlow at hcall ⊢ <;> rw [hlook] at hcall ⊢ <;>
    dsimp only at hcall ⊢
  · split at hcall <;> rename_i hc <;> simp at hcall
    refine ⟨⟨_, 0⟩, ?_, hcall⟩
    simp [hc, CompileShader_pshaders, CompileShader_last_uid, lookupP_insertP_self]
  · simp at hcall
    exact ⟨entry, by simpa using hlook, hcall⟩

theorem SetShader_success_lookup (cfg : Config) (vt : SHADERUID → CompileVerdicts)
    (s : CacheState) (ps : PipelineState) (h : SHADER) (hInv : Inv s)
    (hcall : (SetShader cfg vt s ps).1 = some h) :
    ∃ e, lookupP (SetShader cfg vt s ps).2.pshaders (GetShaderId ps) = some e
      ∧ e.shader = h := by
  unfold SetShader at hcall ⊢
  rcases hle : s.last_entry with _ | e0 <;> rw [hle] at hcall <;>
    dsimp only at hcall ⊢
  · exact SSlow_success_lookup cfg vt _ s h hcall
  · split at hcall <;> rename_i hc
    · rw [if_pos hc]
      simp at hcall
      refine ⟨e0, ?_, hcall⟩
      rw [hc]
      simpa using hInv e0 hle
    · rw [if_neg hc]
      exact SSlow_success_lookup cfg vt _ s h hcall

theorem SSlow_fail (cfg : Config) (vt : SHADERUID → CompileVerdicts)
    (uid : SHADERUID) (s : CacheState) (hFresh : FreshIds s)
    (hmiss : lookupP s.pshaders uid = none)
    (hfail : compileRequestFails cfg (vt uid) uid) :
    (SetShaderSlow cfg vt uid s).1 = none
    ∧ ∃ e, lookupP (SetShaderSlow cfg vt uid s).2.pshaders uid = some e
        ∧ e.shader.glprogid ∉ (SetShaderSlow cfg vt uid s).2.linkedPrograms
        ∧ e.shader.glprogid < (SetShaderSlow cfg vt uid s).2.nextId := by
  unfold SetShaderSlow
  rw [hmiss]
  dsimp only
  set res := CompileShader cfg (vt uid)
      (cfg.supportsGeometryShaders && !uid.guidPassthrough) ⟨0⟩
      { s with last_uid := uid } with hresdef
  have hres : res.1 = false := by
    apply CompileShader_fail
    exact hfail
  have hfs := CompileShader_fail_shader cfg (vt uid)
    (cfg.supportsGeometryShaders && !uid.guidPassthrough) { s with last_uid := uid }
    (by simpa using hFresh.1) (by simpa using hFresh.2.2.2) hfail
  rw [← hresdef] at hfs
  obtain ⟨hfr, hlt⟩ := hfs
  refine ⟨by simp [hres], ⟨res.2.1, 0⟩, ?_, ?_, ?_⟩
  · simp [hres, lookupP_insertP_self]
  · simpa [hres] using hfr
  · simpa [hres] using hlt

theorem SetShader_fail_first (cfg : Config) (vt : SHADERUID → CompileVerdicts)
    (s : CacheState) (ps : PipelineState) (hInv : Inv s) (hFresh : FreshIds s)
    (hmiss : lookupP s.pshaders (GetShaderId ps) = none)
    (hfail : compileRequestFails cfg (vt (GetShaderId ps)) (GetShaderId ps)) :
    (SetShader cfg vt s ps).1 = none
    ∧ ∃ e, lookupP (SetShader cfg vt s ps).2.pshaders (GetShaderId ps) = some e
        ∧ e.shader.glprogid ∉ (SetShader cfg vt s ps).2.linkedPrograms
        ∧ e.shader.glprogid < (SetShader cfg vt s ps).2.nextId := by
  unfold SetShader
  rcases hle : s.last_entry with _ | e0 <;> dsimp only
  · exact SSlow_fail cfg vt _ s hFresh hmiss hfail
  · rw [if_neg ?hne]
    case hne =>
      intro hc
      have h2 := hInv e0 hle
      rw [← hc, hmiss] at h2
      exact Option.noConfusion h2
    exact SSlow_fail cfg vt _ s hFresh hmiss hfail

/-- C1: once a Resolve (SetShader) of a pipeline state has succeeded with some
program handle, every later Resolve of the same state — with arbitrary other
Resolve calls in between — returns the same handle out of the in-memory map and
issues no glCompileShader call (no recompilation), because the unbounded map
never evicts the entry. -/
theorem setShader_idempotent_after_success (cfg : Config)
    (vt : SHADERUID → CompileVerdicts) (s0 : CacheState) (A : PipelineState)
    (h : SHADER) (hInv : Inv s0)
    (hfirst : (SetShader cfg vt s0 A).1 = some h) (mids : List PipelineState) :
    (SetShader cfg vt (runCalls cfg vt mids (SetShader cfg vt s0 A).2) A).1 = some h
    ∧ (SetShader cfg vt (runCalls cfg vt mids (SetShader cfg vt s0 A).2) A).2.compileCalls
        = (runCalls cfg vt mids (SetShader cfg vt s0 A).2).compileCalls := by
  obtain ⟨e, helook, hesh⟩ := SetShader_success_lookup cfg vt s0 A h hInv hfirst
  have hInv1 : Inv (SetShader cfg vt s0 A).2 := SetShader_Inv cfg vt s0 A hInv
  obtain ⟨r1, r2, r3, r4⟩ := runCalls_pres cfg vt mids (SetShader cfg vt s0 A).2
  have hlook2 := r1 _ _ helook
  have hInv2 := r2 hInv1
  obtain ⟨c1, c2⟩ := SetShader_cached cfg vt _ A e hInv2 hlook2
  exact ⟨by rw [c1, hesh], c2⟩

/-- C3: a Resolve whose compilation fails returns the null sentinel, and later
Resolves of the same uid — after arbitrary other Resolves — find the entry that
the failed attempt left in the map, so they issue no glCompileShader call, and
any shader they return is not a successfully linked program. -/
theorem setShader_failure_never_retried (cfg : Config)
    (vt : SHADERUID → CompileVerdicts) (s0 : CacheState) (A : PipelineState)
    (hInv : Inv s0) (hFresh : FreshIds s0)
    (hmiss : lookupP s0.pshaders (GetShaderId A) = none)
    (hfail : compileRequestFails cfg (vt (GetShaderId A)) (GetShaderId A))
    (mids : List PipelineState) :
    (SetShader cfg vt s0 A).1 = none
    ∧ (SetShader cfg vt (runCalls cfg vt mids (SetShader cfg vt s0 A).2) A).2.compileCalls
        = (runCalls cfg vt mids (SetShader cfg vt s0 A).2).compileCalls
    ∧ ∀ sh, (SetShader cfg vt (runCalls cfg vt mids (SetShader cfg vt s0 A).2) A).1 = some sh →
        sh.glprogid ∉ (runCalls cfg vt mids (SetShader cfg vt s0 A).2).linkedPrograms := by
  obtain ⟨hnone, e, helook, hnl, hlt⟩ :=
    SetShader_fail_first cfg vt s0 A hInv hFresh hmiss hfail
  have hInv1 : Inv (SetShader cfg vt s0 A).2 := SetShader_Inv cfg vt s0 A hInv
  obtain ⟨r1, r2, r3, r4⟩ := runCalls_pres cfg vt mids (SetShader cfg vt s0 A).2
  have hlook2 := r1 _ _ helook
  have hInv2 := r2 hInv1
  have hnl2 := r4 e.shader.glprogid hlt hnl
  obtain ⟨c1, c2⟩ := SetShader_cached cfg vt _ A e hInv2 hlook2
  refine ⟨hnone, c2, ?_⟩
  intro sh hsh
  rw [c1] at hsh
  have : e.shader = sh := Option.some.inj hsh
  rw [← this]
  exact hnl2


/-! ### Witness inputs and the remaining claims -/


/-- A sample configuration used by the concrete witnesses. -/
def cfgW : Config :=
  { supportsGeometryShaders := true, bindingLayout := true, supportsGLSLCache := true,
    enableShaderDebugging := false, pixelBufferFloats := 2, vertexBufferFloats := 3,
    geometryConstantsBytes := 5 }

/-- Verdict oracle on which every compilation and link succeeds. -/
def vtOk : SHADERUID → CompileVerdicts := fun _ => ⟨true, true, true, true⟩

/-- Verdict oracle on which the fragment stage always fails. -/
def vtBad : SHADERUID → CompileVerdicts := fun _ => ⟨true, false, true, true⟩

/-- Two sample pipeline states with distinct uids. -/
def stA : PipelineState := ⟨0, 0, 0⟩

def stB : PipelineState := ⟨1, 1, 1⟩

theorem setShader_idempotent_after_success_witness :
    (SetShader cfgW vtOk (runCalls cfgW vtOk [stB] (SetShader cfgW vtOk initState stA).2) stA).1
        = some ⟨3⟩
    ∧ (SetShader cfgW vtOk (runCalls cfgW vtOk [stB]
          (SetShader cfgW vtOk initState stA).2) stA).2.compileCalls
        = (runCalls cfgW vtOk [stB] (SetShader cfgW vtOk initState stA).2).compileCalls :=
  setShader_idempotent_after_success cfgW vtOk initState stA ⟨3⟩
    (fun _ he => nomatch he) (by decide) [stB]

theorem setShader_failure_never_retried_witness :
    (SetShader cfgW vtBad initState stA).1 = none
    ∧ (SetShader cfgW vtBad (runCalls cfgW vtBad [stB]
          (SetShader cfgW vtBad initState stA).2) stA).2.compileCalls
        = (runCalls cfgW vtBad [stB] (SetShader cfgW vtBad initState stA).2).compileCalls
    ∧ ∀ sh, (SetShader cfgW vtBad (runCalls cfgW vtBad [stB]
          (SetShader cfgW vtBad initState stA).2) stA).1 = some sh →
        sh.glprogid ∉ (runCalls cfgW vtBad [stB]
          (SetShader cfgW vtBad initState stA).2).linkedPrograms :=
  setShader_failure_never_retried cfgW vtBad initState stA
    (fun _ he => nomatch he) (by unfold FreshIds; decide) (by decide)
    (by unfold compileRequestFails; decide) [stB]

/-- C6: when at least one stage of a compilation request fails, CompileShader
reports failure, glLinkProgram is never called, and every stage object created
for the attempt — including successfully compiled stages — is deleted, leaving
the driver's shader-object table exactly as before the attempt. -/
theorem compileShader_stage_failure_aborts (cfg : Config) (vd : CompileVerdicts)
    (hg : Bool) (sh : SHADER) (s : CacheState) (hFresh : FreshIds s)
    (hfail : ¬(vd.vOk = true ∧ vd.pOk = true ∧ (hg = true → vd.gOk = true))) :
    (CompileShader cfg vd hg sh s).1 = false
    ∧ (CompileShader cfg vd hg sh s).2.2.linkCalls = s.linkCalls
    ∧ (CompileShader cfg vd hg sh s).2.2.liveShaders = s.liveShaders := by
  apply CompileShader_stage_fail cfg vd hg sh s hFresh.1
    (fun x hx => (hFresh.2.1 x hx).2)
  rcases vd with ⟨v, p, g, l⟩
  cases v <;> cases p <;> cases g <;> cases hg <;> simp_all

theorem compileShader_stage_failure_aborts_witness :
    (CompileShader cfgW ⟨true, false, true, true⟩ true ⟨0⟩ initState).1 = false
    ∧ (CompileShader cfgW ⟨true, false, true, true⟩ true ⟨0⟩ initState).2.2.linkCalls
        = initState.linkCalls
    ∧ (CompileShader cfgW ⟨true, false, true, true⟩ true ⟨0⟩ initState).2.2.liveShaders
        = initState.liveShaders :=
  compileShader_stage_failure_aborts cfgW ⟨true, false, true, true⟩ true ⟨0⟩ initState
    (by unfold FreshIds; decide) (by decide)

/-- C7: binding the handle already tracked as the current program changes
nothing at all (zero glUseProgram calls, counter untouched); binding a different
handle issues exactly one glUseProgram call, retargets the tracked current
program and increments the shader-change statistic by exactly one. -/
theorem bind_idempotent_and_counted (s : CacheState) (sh : SHADER) :
    (sh.glprogid = s.CurrentProgram → sh.Bind s = s)
    ∧ (sh.glprogid ≠ s.CurrentProgram →
        (sh.Bind s).useProgramCalls = s.useProgramCalls + 1
        ∧ (sh.Bind s).CurrentProgram = sh.glprogid
        ∧ (sh.Bind s).numShaderChanges = s.numShaderChanges + 1) := by
  refine ⟨fun h => ?_, fun h => ?_⟩
  · unfold SHADER.Bind
    rw [if_neg (fun hne => hne h.symm)]
  · unfold SHADER.Bind
    rw [if_pos (Ne.symm h)]
    exact ⟨rfl, rfl, rfl⟩

theorem bind_idempotent_and_counted_witness :
    SHADER.Bind ⟨5⟩ { initState with CurrentProgram := 5 }
        = { initState with CurrentProgram := 5 }
    ∧ ((SHADER.Bind ⟨7⟩ { initState with CurrentProgram := 5 }).useProgramCalls
          = { initState with CurrentProgram := 5 }.useProgramCalls + 1
        ∧ (SHADER.Bind ⟨7⟩ { initState with CurrentProgram := 5 }).CurrentProgram = 7
        ∧ (SHADER.Bind ⟨7⟩ { initState with CurrentProgram := 5 }).numShaderChanges
          = { initState with CurrentProgram := 5 }.numShaderChanges + 1) :=
  ⟨(bind_idempotent_and_counted { initState with CurrentProgram := 5 } ⟨5⟩).1 (by decide),
   (bind_idempotent_and_counted { initState with CurrentProgram := 5 } ⟨7⟩).2 (by decide)⟩

theorem UploadConstants_noop (cfg : Config) (s : CacheState)
    (h1 : s.psDirty = false) (h2 : s.vsDirty = false) (h3 : s.gsDirty = false) :
    UploadConstants cfg s = (s, none) := by
  unfold UploadConstants
  simp [h1, h2, h3]

theorem UploadConstants_clean (cfg : Config) (s : CacheState) :
    (UploadConstants cfg s).1.psDirty = false
    ∧ (UploadConstants cfg s).1.vsDirty = false
    ∧ (UploadConstants cfg s).1.gsDirty = false := by
  unfold UploadConstants
  split <;> rename_i hc <;> simp_all

/-- C8: UploadConstants maps, copies and binds only when one of the three
constant sources is dirty; a performed upload leaves all three sources clean,
so a second consecutive call does no map/unmap/bind work and returns the state
unchanged. -/
theorem uploadConstants_dirty_gating (cfg : Config) (s : CacheState) :
    ((s.psDirty = false ∧ s.vsDirty = false ∧ s.gsDirty = false) →
        UploadConstants cfg s = (s, none))
    ∧ (∀ s1 r, UploadConstants cfg s = (s1, some r) →
        s1.psDirty = false ∧ s1.vsDirty = false ∧ s1.gsDirty = false)
    ∧ UploadConstants cfg (UploadConstants cfg s).1 = ((UploadConstants cfg s).1, none) := by
  refine ⟨?_, ?_, ?_⟩
  · rintro ⟨h1, h2, h3⟩
    exact UploadConstants_noop cfg s h1 h2 h3
  · intro s1 r h
    have hc := UploadConstants_clean cfg s
    rw [h] at hc
    exact hc
  · obtain ⟨h1, h2, h3⟩ := UploadConstants_clean cfg s
    exact UploadConstants_noop cfg _ h1 h2 h3

theorem uploadConstants_dirty_gating_witness :
    (UploadConstants cfgW initState = (initState, none))
    ∧ UploadConstants cfgW
          (UploadConstants cfgW { initState with psDirty := true, s_ubo_align := 16 }).1
        = ((UploadConstants cfgW { initState with psDirty := true, s_ubo_align := 16 }).1,
            none) :=
  ⟨(uploadConstants_dirty_gating cfgW initState).1 (by decide),
   (uploadConstants_dirty_gating cfgW
      { initState with psDirty := true, s_ubo_align := 16 }).2.2⟩

@[simp] theorem Bind_s_ubo_align (sh : SHADER) (s : CacheState) :
    (sh.Bind s).s_ubo_align = s.s_ubo_align := by
  unfold SHADER.Bind; split <;> rfl

@[simp] theorem Bind_s_ubo_buffer_size (sh : SHADER) (s : CacheState) :
    (sh.Bind s).s_ubo_buffer_size = s.s_ubo_buffer_size := by
  unfold SHADER.Bind; split <;> rfl

@[simp] theorem Bind_alignQueries (sh : SHADER) (s : CacheState) :
    (sh.Bind s).alignQueries = s.alignQueries := by
  unfold SHADER.Bind; split <;> rfl

@[simp] theorem Bind_bufferCreated (sh : SHADER) (s : CacheState) :
    (sh.Bind s).bufferCreated = s.bufferCreated := by
  unfold SHADER.Bind; split <;> rfl

@[simp] theorem SPV_s_ubo_align (sh : SHADER) (cfg : Config) (s : CacheState) :
    (sh.SetProgramVariables cfg s).s_ubo_align = s.s_ubo_align := by
  unfold SHADER.SetProgramVariables; split <;> simp

@[simp] theorem SPV_s_ubo_buffer_size (sh : SHADER) (cfg : Config) (s : CacheState) :
    (sh.SetProgramVariables cfg s).s_ubo_buffer_size = s.s_ubo_buffer_size := by
  unfold SHADER.SetProgramVariables; split <;> simp

@[simp] theorem SPV_alignQueries (sh : SHADER) (cfg : Config) (s : CacheState) :
    (sh.SetProgramVariables cfg s).alignQueries = s.alignQueries := by
  unfold SHADER.SetProgramVariables; split <;> simp

@[simp] theorem SPV_bufferCreated (sh : SHADER) (cfg : Config) (s : CacheState) :
    (sh.SetProgramVariables cfg s).bufferCreated = s.bufferCreated := by
  unfold SHADER.SetProgramVariables; split <;> simp

@[simp] theorem glDeleteProgram_s_ubo_align (i : Nat) (s : CacheState) :
    (glDeleteProgram i s).s_ubo_align = s.s_ubo_align := by
  unfold glDeleteProgram; split <;> rfl

@[simp] theorem glDeleteProgram_s_ubo_buffer_size (i : Nat) (s : CacheState) :
    (glDeleteProgram i s).s_ubo_buffer_size = s.s_ubo_buffer_size := by
  unfold glDeleteProgram; split <;> rfl

@[simp] theorem glDeleteProgram_alignQueries (i : Nat) (s : CacheState) :
    (glDeleteProgram i s).alignQueries = s.alignQueries := by
  unfold glDeleteProgram; split <;> rfl

@[simp] theorem glDeleteProgram_bufferCreated (i : Nat) (s : CacheState) :
    (glDeleteProgram i s).bufferCreated = s.bufferCreated := by
  unfold glDeleteProgram; split <;> rfl

theorem inserterRead_ubo (cfg : Config) (lok : List Nat → Bool) (s : CacheState)
    (k : SHADERUID) (v : List Nat) :
    (inserterRead cfg lok s k v).s_ubo_align = s.s_ubo_align
    ∧ (inserterRead cfg lok s k v).s_ubo_buffer_size = s.s_ubo_buffer_size
    ∧ (inserterRead cfg lok s k v).alignQueries = s.alignQueries
    ∧ (inserterRead cfg lok s k v).bufferCreated = s.bufferCreated := by
  unfold inserterRead
  split <;> simp

theorem OpenAndRead_ubo (cfg : Config) (lok : List Nat → Bool)
    (recs : List (SHADERUID × List Nat)) :
    ∀ s : CacheState,
      (OpenAndRead cfg lok recs s).s_ubo_align = s.s_ubo_align
      ∧ (OpenAndRead cfg lok recs s).s_ubo_buffer_size = s.s_ubo_buffer_size
      ∧ (OpenAndRead cfg lok recs s).alignQueries = s.alignQueries
      ∧ (OpenAndRead cfg lok recs s).bufferCreated = s.bufferCreated := by
  induction recs with
  | nil => intro s; exact ⟨rfl, rfl, rfl, rfl⟩
  | cons r rest ih =>
    intro s
    obtain ⟨i1, i2, i3, i4⟩ := inserterRead_ubo cfg lok s r.1 r.2
    obtain ⟨j1, j2, j3, j4⟩ := ih (inserterRead cfg lok s r.1 r.2)
    simp only [OpenAndRead]
    exact ⟨by rw [j1, i1], by rw [j2, i2], by rw [j3, i3], by rw [j4, i4]⟩

theorem Init_fields (cfg : Config) (a nbf : Nat) (lok : List Nat → Bool)
    (recs : List (SHADERUID × List Nat)) (s : CacheState) :
    (Init cfg a nbf lok recs s).s_ubo_align = a
    ∧ (Init cfg a nbf lok recs s).s_ubo_buffer_size
        = ROUND_UP (4 * cfg.pixelBufferFloats) a
          + ROUND_UP (4 * cfg.vertexBufferFloats) a
          + ROUND_UP cfg.geometryConstantsBytes a
    ∧ (Init cfg a nbf lok recs s).alignQueries = s.alignQueries + 1
    ∧ (Init cfg a nbf lok recs s).bufferCreated = true
    ∧ (Init cfg a nbf lok recs s).last_entry = none
    ∧ (Init cfg a nbf lok recs s).CurrentProgram = 0 := by
  unfold Init
  dsimp only
  split
  · split
    · exact ⟨rfl, rfl, rfl, rfl, rfl, rfl⟩
    · obtain ⟨j1, j2, j3, j4⟩ := OpenAndRead_ubo cfg lok recs _
      exact ⟨by simpa using j1, by simpa using j2, by simpa using j3,
        by simpa using j4, rfl, rfl⟩
  · exact ⟨rfl, rfl, rfl, rfl, rfl, rfl⟩

/-- C10: the debug accessor GetShaderProgram dereferences last_entry without a
null check; immediately after Init — which sets last_entry to null — and before
any SetShader, the dereference of a null pointer is reached (modelled as the
accessor yielding none); after any SetShader call the pointer is non-null, so
the accessor is safe only under that precondition. -/
theorem getShaderProgram_null_after_init (cfg : Config)
    (vt : SHADERUID → CompileVerdicts) (a nbf : Nat) (lok : List Nat → Bool)
    (recs : List (SHADERUID × List Nat)) (s : CacheState) :
    GetShaderProgram (Init cfg a nbf lok recs s) = none
    ∧ ∀ t ps, (GetShaderProgram (SetShader cfg vt t ps).2).isSome = true := by
  constructor
  · exact (Init_fields cfg a nbf lok recs s).2.2.2.2.1
  · intro t ps
    exact SetShader_isSome cfg vt t ps

/-- C5 amended: Init queries the uniform-buffer alignment exactly once, but a
zero alignment is not detected or treated as fatal — Init unconditionally sizes
the UBO and creates the streaming buffer whatever the queried alignment is. -/
theorem init_queries_alignment_once_and_proceeds (cfg : Config) (a nbf : Nat)
    (lok : List Nat → Bool) (recs : List (SHADERUID × List Nat)) (s : CacheState) :
    (Init cfg a nbf lok recs s).alignQueries = s.alignQueries + 1
    ∧ (Init cfg a nbf lok recs s).s_ubo_align = a
    ∧ (Init cfg a nbf lok recs s).bufferCreated = true := by
  obtain ⟨h1, _, h3, h4, _, _⟩ := Init_fields cfg a nbf lok recs s
  exact ⟨h3, h1, h4⟩

/-- C5 counterexample: with a zero (or failed, hence zero-initialized) alignment
query result, Init still proceeds to size and create the streaming buffer: no
fatal-error path exists in the code. -/
theorem init_zero_alignment_still_creates_buffer :
    (Init cfgW 0 0 (fun _ => false) [] initState).bufferCreated = true
    ∧ (Init cfgW 0 0 (fun _ => false) [] initState).s_ubo_align = 0 := by
  decide

/-- A sample uid used by the disk-cache counterexamples. -/
def kW : SHADERUID := ⟨1, 2, 3, false⟩

/-- C2 counterexample: replaying the first record alone creates the entry with
program id 1 for the key; replaying both records leaves the entry created from
the second record (program id 2) — the first-loaded entry is replaced, so the
startup replay is last-wins, not first-wins. -/
theorem disk_replay_first_record_replaced :
    lookupP (OpenAndRead cfgW (fun _ => true) [(kW, [7])] initState).pshaders kW
        = some ⟨⟨1⟩, 1⟩
    ∧ lookupP (OpenAndRead cfgW (fun _ => true)
          [(kW, [7]), (kW, [8])] initState).pshaders kW
        = some ⟨⟨2⟩, 1⟩ := by
  decide

/-- C2 amended: when the startup replay meets a second successfully loaded
record for a key it overwrites the in-memory entry with a fresh program built
from the later record (last occurrence wins), and the earlier record's program
object is leaked, not deleted. -/
theorem disk_replay_last_record_wins (cfg : Config) (loadOk : List Nat → Bool)
    (s : CacheState) (k : SHADERUID) (b1 b2 : List Nat)
    (h1 : loadOk b1 = true) (h2 : loadOk b2 = true) :
    lookupP (inserterRead cfg loadOk (inserterRead cfg loadOk s k b1) k b2).pshaders k
        = some ⟨⟨s.nextId + 1⟩, 1⟩
    ∧ s.nextId ∈ (inserterRead cfg loadOk (inserterRead cfg loadOk s k b1) k b2).livePrograms := by
  unfold inserterRead
  simp [h1, h2, lookupP_insertP_self]

theorem disk_replay_last_record_wins_witness :
    lookupP (inserterRead cfgW (fun _ => true)
          (inserterRead cfgW (fun _ => true) initState kW [7]) kW [8]).pshaders kW
        = some ⟨⟨initState.nextId + 1⟩, 1⟩
    ∧ initState.nextId ∈ (inserterRead cfgW (fun _ => true)
          (inserterRead cfgW (fun _ => true) initState kW [7]) kW [8]).livePrograms :=
  disk_replay_last_record_wins cfgW (fun _ => true) initState kW [7] [8] rfl rfl

theorem flushEntry_fields (ser : Nat → Option (List Nat)) (s : CacheState)
    (e : SHADERUID × PCacheEntry) :
    (flushEntry ser s e).pshaders = s.pshaders
    ∧ (flushEntry ser s e).livePrograms = s.livePrograms
    ∧ (flushEntry ser s e).last_entry = s.last_entry := by
  unfold flushEntry
  split
  · exact ⟨rfl, rfl, rfl⟩
  · split <;> exact ⟨rfl, rfl, rfl⟩

theorem flushFold_fields (ser : Nat → Option (List Nat))
    (l : List (SHADERUID × PCacheEntry)) :
    ∀ s : CacheState,
      (l.foldl (flushEntry ser) s).pshaders = s.pshaders
      ∧ (l.foldl (flushEntry ser) s).livePrograms = s.livePrograms
      ∧ (l.foldl (flushEntry ser) s).last_entry = s.last_entry := by
  induction l with
  | nil => intro s; exact ⟨rfl, rfl, rfl⟩
  | cons e rest ih =>
    intro s
    obtain ⟨i1, i2, i3⟩ := flushEntry_fields ser s e
    obtain ⟨j1, j2, j3⟩ := ih (flushEntry ser s e)
    simp only [List.foldl]
    exact ⟨by rw [j1, i1], by rw [j2, i2], by rw [j3, i3]⟩

theorem destroyFold_not_mem (l : List (SHADERUID × PCacheEntry)) :
    ∀ (g : CacheState) (x : Nat), x ∉ g.livePrograms →
      x ∉ (l.foldl (fun g e => glDeleteProgram e.2.shader.glprogid g) g).livePrograms := by
  induction l with
  | nil => intro g x h; exact h
  | cons e rest ih =>
    intro g x h
    simp only [List.foldl]
    apply ih
    unfold glDeleteProgram
    split
    · exact h
    · simp only [List.mem_filter]
      rintro ⟨hx, _⟩
      exact h hx

theorem destroyFold_removes (l : List (SHADERUID × PCacheEntry)) :
    ∀ (g : CacheState) (e : SHADERUID × PCacheEntry), e ∈ l →
      e.2.shader.glprogid ≠ 0 →
      e.2.shader.glprogid
        ∉ (l.foldl (fun g e => glDeleteProgram e.2.shader.glprogid g) g).livePrograms := by
  induction l with
  | nil => intro g e h; cases h
  | cons hd rest ih =>
    intro g e he hne
    simp only [List.foldl]
    rcases List.mem_cons.mp he with h1 | h2
    · subst h1
      apply destroyFold_not_mem
      unfold glDeleteProgram
      rw [if_neg hne]
      simp [List.mem_filter]
    · exact ih _ e h2 hne

theorem destroyFold_fields (l : List (SHADERUID × PCacheEntry)) :
    ∀ g : CacheState,
      (l.foldl (fun g e => glDeleteProgram e.2.shader.glprogid g) g).pshaders = g.pshaders
      ∧ (l.foldl (fun g e => glDeleteProgram e.2.shader.glprogid g) g).boundProgram
          = g.boundProgram
      ∧ (l.foldl (fun g e => glDeleteProgram e.2.shader.glprogid g) g).last_entry
          = g.last_entry := by
  induction l with
  | nil => intro g; exact ⟨rfl, rfl, rfl⟩
  | cons e rest ih =>
    intro g
    obtain ⟨j1, j2, j3⟩ := ih (glDeleteProgram e.2.shader.glprogid g)
    simp only [List.foldl]
    exact ⟨by rw [j1]; simp, by rw [j2]; simp, by rw [j3]; simp⟩

theorem destroyFold_all (l : List (SHADERUID × PCacheEntry)) (g : CacheState)
    (h0 : 0 ∉ g.livePrograms) :
    ∀ e ∈ l, e.2.shader.glprogid
      ∉ (l.foldl (fun g e => glDeleteProgram e.2.shader.glprogid g) g).livePrograms := by
  intro e he
  by_cases hz : e.2.shader.glprogid = 0
  · rw [hz]
    exact destroyFold_not_mem l g 0 h0
  · exact destroyFold_removes l g e he hz

/-- C4 amended: after Shutdown the active program has been unbound with a
driver call, every cache entry's GPU program object has been destroyed and the
uid-to-entry map is empty — but the last-resolved pointer is NOT cleared: it
keeps its previous value (only Init resets it to null). -/
theorem shutdown_final_state (cfg : Config) (ser : Nat → Option (List Nat))
    (s : CacheState) (h0 : 0 ∉ s.livePrograms) :
    (Shutdown cfg ser s).boundProgram = 0
    ∧ (Shutdown cfg ser s).pshaders = []
    ∧ (∀ e ∈ s.pshaders, e.2.shader.glprogid ∉ (Shutdown cfg ser s).livePrograms)
    ∧ (Shutdown cfg ser s).last_entry = s.last_entry := by
  unfold Shutdown
  dsimp only
  split <;> rename_i hflush
  · obtain ⟨f1, f2, f3⟩ := flushFold_fields ser s.pshaders s
    refine ⟨?_, rfl, ?_, ?_⟩
    · rw [(destroyFold_fields _ _).2.1]
    · rw [f1]
      apply destroyFold_all
      simpa [f2] using h0
    · rw [(destroyFold_fields _ _).2.2]
      simpa using f3
  · refine ⟨?_, rfl, ?_, ?_⟩
    · rw [(destroyFold_fields _ _).2.1]
    · apply destroyFold_all
      simpa using h0
    · rw [(destroyFold_fields _ _).2.2]

/-- C4 counterexample: starting from a state whose last-resolved pointer is
set, Shutdown leaves the pointer set — it is not cleared as the claim states
(clearing happens only in Init). -/
theorem shutdown_leaves_last_entry_set :
    (Shutdown cfgW (fun _ => none)
        { initState with last_entry := some ⟨⟨0⟩, 0⟩ }).last_entry ≠ none := by
  decide

/-- A populated sample state for the Shutdown witness. -/
def sShut : CacheState :=
  { initState with nextId := 5
                   pshaders := [(kW, ⟨⟨4⟩, 0⟩)]
                   livePrograms := [4]
                   linkedPrograms := [4]
                   last_entry := some ⟨⟨4⟩, 0⟩
                   boundProgram := 4
                   CurrentProgram := 4 }

theorem shutdown_final_state_witness :
    (Shutdown cfgW (fun _ => none) sShut).boundProgram = 0
    ∧ (Shutdown cfgW (fun _ => none) sShut).pshaders = []
    ∧ (∀ e ∈ sShut.pshaders,
        e.2.shader.glprogid ∉ (Shutdown cfgW (fun _ => none) sShut).livePrograms)
    ∧ (Shutdown cfgW (fun _ => none) sShut).last_entry = sShut.last_entry :=
  shutdown_final_state cfgW (fun _ => none) sShut (by decide)

/-- C9: an actually performed upload maps exactly the combined size that Init
computed — the sum of the pixel, vertex and geometry block byte sizes, each
rounded up to the queried alignment — copies the pixel block at sub-offset 0,
the vertex block at the rounded-up pixel size and the geometry block at the sum
of both rounded-up sizes, and binds binding points 1, 2 and 3 at those offsets
with each block's unrounded byte length. -/
theorem uploadConstants_layout (cfg : Config) (s : CacheState)
    (hdirty : s.psDirty = true ∨ s.vsDirty = true ∨ s.gsDirty = true)
    (hsize : s.s_ubo_buffer_size
        = ROUND_UP (4 * cfg.pixelBufferFloats) s.s_ubo_align
          + ROUND_UP (4 * cfg.vertexBufferFloats) s.s_ubo_align
          + ROUND_UP cfg.geometryConstantsBytes s.s_ubo_align) :
    (∀ (cfg2 : Config) (a nbf : Nat) (lok : List Nat → Bool)
        (recs : List (SHADERUID × List Nat)) (t : CacheState),
        (Init cfg2 a nbf lok recs t).s_ubo_align = a
        ∧ (Init cfg2 a nbf lok recs t).s_ubo_buffer_size
            = ROUND_UP (4 * cfg2.pixelBufferFloats) a
              + ROUND_UP (4 * cfg2.vertexBufferFloats) a
              + ROUND_UP cfg2.geometryConstantsBytes a)
    ∧ ∃ off, (UploadConstants cfg s).2 = some
        { mapSize := ROUND_UP (4 * cfg.pixelBufferFloats) s.s_ubo_align
            + ROUND_UP (4 * cfg.vertexBufferFloats) s.s_ubo_align
            + ROUND_UP cfg.geometryConstantsBytes s.s_ubo_align
          mapOffset := off
          copies := [(0, 4 * cfg.pixelBufferFloats),
            (ROUND_UP (4 * cfg.pixelBufferFloats) s.s_ubo_align,
              4 * cfg.vertexBufferFloats),
            (ROUND_UP (4 * cfg.pixelBufferFloats) s.s_ubo_align
                + ROUND_UP (4 * cfg.vertexBufferFloats) s.s_ubo_align,
              cfg.geometryConstantsBytes)]
          binds := [(1, off, 4 * cfg.pixelBufferFloats),
            (2, off + ROUND_UP (4 * cfg.pixelBufferFloats) s.s_ubo_align,
              4 * cfg.vertexBufferFloats),
            (3, off + ROUND_UP (4 * cfg.pixelBufferFloats) s.s_ubo_align
                + ROUND_UP (4 * cfg.vertexBufferFloats) s.s_ubo_align,
              cfg.geometryConstantsBytes)] } := by
  constructor
  · intro cfg2 a nbf lok recs t
    obtain ⟨h1, h2, _⟩ := Init_fields cfg2 a nbf lok recs t
    exact ⟨h1, h2⟩
  · have hcond : (s.psDirty || s.vsDirty || s.gsDirty) = true := by
      rcases hdirty with h | h | h <;> simp [h]
    refine ⟨(streamMap s.s_ubo_buffer_size s.s_ubo_align s).1, ?_⟩
    unfold UploadConstants
    rw [if_pos hcond]
    dsimp only
    rw [hsize]
    simp [Nat.add_assoc]

/-- A dirty sample state with alignment 16 for the upload-layout witness. -/
def sUp : CacheState :=
  { initState with psDirty := true
                   s_ubo_align := 16
                   s_ubo_buffer_size := 48 }

theorem uploadConstants_layout_witness :
    sUp.psDirty = true
    ∧ (∃ off, (UploadConstants cfgW sUp).2 = some
        { mapSize := ROUND_UP (4 * cfgW.pixelBufferFloats) sUp.s_ubo_align
            + ROUND_UP (4 * cfgW.vertexBufferFloats) sUp.s_ubo_align
            + ROUND_UP cfgW.geometryConstantsBytes sUp.s_ubo_align
          mapOffset := off
          copies := [(0, 4 * cfgW.pixelBufferFloats),
            (ROUND_UP (4 * cfgW.pixelBufferFloats) sUp.s_ubo_align,
              4 * cfgW.vertexBufferFloats),
            (ROUND_UP (4 * cfgW.pixelBufferFloats) sUp.s_ubo_align
                + ROUND_UP (4 * cfgW.vertexBufferFloats) sUp.s_ubo_align,
              cfgW.geometryConstantsBytes)]
          binds := [(1, off, 4 * cfgW.pixelBufferFloats),
            (2, off + ROUND_UP (4 * cfgW.pixelBufferFloats) sUp.s_ubo_align,
              4 * cfgW.vertexBufferFloats),
            (3, off + ROUND_UP (4 * cfgW.pixelBufferFloats) sUp.s_ubo_align
                + ROUND_UP (4 * cfgW.vertexBufferFloats) sUp.s_ubo_align,
              cfgW.geometryConstantsBytes)] }) :=
  ⟨rfl, (uploadConstants_layout cfgW sUp (Or.inl rfl) (by decide)).2⟩


end OGLCache
